import Mathlib

/-!
Shallow embedding of the checker-controller core of the pd repository
(`server/schedule/checker_controller.go`) and of the flow-kind helpers
(`server/statistics/flowkind.go`).

The individual checkers (learner, replica, rule, split, merge, joint-state,
priority), the operator controller, the metrics counters and the bounded
cache live outside the embedded files; a `CheckRegion` call observes them
only through a fixed set of queries (`Check`, `CheckWithFit`,
`OperatorCount`, config getters, `GetType`).  We therefore model one call's
environment as a record `CheckerEnv` holding the answer each collaborator
would give for the region under check, and we record the call's side
effects (which checkers were consulted, which region ids were `Put` into
the waiting list, which labelled counters were incremented) in an explicit
effect log `CheckLog`.
-/

namespace PD

/-- An operator (`*operator.Operator`), opaque to the controller; only its
identity matters here. -/
structure Operator where
  opId : Nat
deriving DecidableEq, Repr

/-- A region snapshot (`*core.RegionInfo`); the controller only extracts its
identifier via `GetID`. -/
structure RegionInfo where
  regionId : Nat
deriving DecidableEq, Repr

/-- `RegionInfo.GetID` -/
def RegionInfo.GetID (r : RegionInfo) : Nat := r.regionId

/-- A placement-fit assessment (`*placement.RegionFit`) returned by the
priority checker, opaque to the controller. -/
structure RegionFit where
  fitId : Nat
deriving DecidableEq, Repr

/-- The operator category used for limit accounting: `operator.OpReplica`
or `operator.OpMerge`. -/
inductive ActionCategory
  | replica
  | merge
deriving DecidableEq, Repr

/-- Names of the seven checkers, used to record which checker a
`CheckRegion` call actually consulted (i.e. on which it invoked `Check` /
`CheckWithFit`). -/
inductive CheckerName
  | jointState
  | split
  | priority
  | rule
  | learner
  | replica
  | merge
deriving DecidableEq, Repr

/-- The observable side effects of one `CheckRegion` call: the checkers
consulted in order, the region ids `Put` into `regionWaitingList`, and the
`OperatorLimitCounter.WithLabelValues(type, category).Inc()` events. -/
structure CheckLog where
  consulted : List CheckerName
  waitingPuts : List Nat
  counterIncs : List (String × ActionCategory)
deriving DecidableEq, Repr

/-- Record a `Check` / `CheckWithFit` call on a checker. -/
def CheckLog.consult (l : CheckLog) (c : CheckerName) : CheckLog :=
  { l with consulted := l.consulted ++ [c] }

/-- Record a `regionWaitingList.Put(id, nil)` call. -/
def CheckLog.put (l : CheckLog) (id : Nat) : CheckLog :=
  { l with waitingPuts := l.waitingPuts ++ [id] }

/-- Record an `OperatorLimitCounter.WithLabelValues(ty, cat).Inc()` call. -/
def CheckLog.inc (l : CheckLog) (ty : String) (cat : ActionCategory) : CheckLog :=
  { l with counterIncs := l.counterIncs ++ [(ty, cat)] }

/-- The environment one `CheckRegion` call runs in: the answer every
collaborator query would return for the region under check.

* `isPlacementRulesEnabled`, `getReplicaScheduleLimit`,
  `getMergeScheduleLimit` model `c.opts.IsPlacementRulesEnabled()`,
  `c.opts.GetReplicaScheduleLimit()` and `c.opts.GetMergeScheduleLimit()`;
* `operatorCountReplica` / `operatorCountMerge` model
  `opController.OperatorCount(operator.OpReplica)` /
  `opController.OperatorCount(operator.OpMerge)`;
* `jointStateCheck`, `splitCheck`, `priorityCheck`, `learnerCheck`,
  `replicaCheck` model the respective checkers' `Check(region)` results
  (`none` = Go `nil`); `ruleCheckWithFit` models
  `c.ruleChecker.CheckWithFit(region, fit)` as a function of the fit;
  `mergeCheck` models `c.mergeChecker.Check(region)` (a slice, `none` =
  Go `nil`);
* `hasMergeChecker` models `c.mergeChecker != nil`;
* `ruleCheckerGetType`, `replicaCheckerGetType`, `mergeCheckerGetType`
  model the corresponding `GetType()` label strings. -/
structure CheckerEnv where
  isPlacementRulesEnabled : Bool
  getReplicaScheduleLimit : Nat
  getMergeScheduleLimit : Nat
  operatorCountReplica : Nat
  operatorCountMerge : Nat
  jointStateCheck : Option Operator
  splitCheck : Option Operator
  priorityCheck : Option RegionFit
  ruleCheckWithFit : RegionFit → Option Operator
  learnerCheck : Option Operator
  replicaCheck : Option Operator
  mergeCheck : Option (List Operator)
  hasMergeChecker : Bool
  ruleCheckerGetType : String
  replicaCheckerGetType : String
  mergeCheckerGetType : String

/-- The trailing merge block of `CheckRegion`
(checker_controller.go:106-116): if the merge checker exists, compare the
in-flight merge-operator count against the merge schedule limit; when not
allowed, increment the merge-labelled limit counter and fall through to
`return nil`; when allowed, consult the merge checker and return its
(possibly two-element) proposal, or `nil` when it declines. -/
def mergeStep (c : CheckerEnv) (log : CheckLog) : List Operator × CheckLog :=
  if c.hasMergeChecker then
    let allowed : Bool := c.operatorCountMerge < c.getMergeScheduleLimit
    if !allowed then
      ([], log.inc c.mergeCheckerGetType ActionCategory.merge)
    else
      let log := log.consult CheckerName.merge
      match c.mergeCheck with
      | some ops => (ops, log)
      | none => ([], log)
  else
    ([], log)

/-- `CheckerController.CheckRegion` (checker_controller.go:69-118),
returning the operator slice together with the call's effect log.

The chain is: joint-state checker (early return), split checker (early
return), then either the priority/rule branch (placement rules enabled) or
the learner/replica branch (disabled) — both replica-repair paths gated by
`OperatorCount(OpReplica) < GetReplicaScheduleLimit()`, on failure
incrementing the consulted checker's labelled counter and putting the
region id into the waiting list — and finally the merge block
(`mergeStep`). -/
def CheckRegion (c : CheckerEnv) (region : RegionInfo) : List Operator × CheckLog :=
  let log : CheckLog := ⟨[], [], []⟩
  let log := log.consult CheckerName.jointState
  match c.jointStateCheck with
  | some op => ([op], log)
  | none =>
    let log := log.consult CheckerName.split
    match c.splitCheck with
    | some op => ([op], log)
    | none =>
      if c.isPlacementRulesEnabled then
        let log := log.consult CheckerName.priority
        match c.priorityCheck with
        | some fit =>
          let log := log.consult CheckerName.rule
          match c.ruleCheckWithFit fit with
          | some op =>
            if c.operatorCountReplica < c.getReplicaScheduleLimit then
              ([op], log)
            else
              let log := log.inc c.ruleCheckerGetType ActionCategory.replica
              let log := log.put region.GetID
              mergeStep c log
          | none => mergeStep c log
        | none => mergeStep c log
      else
        let log := log.consult CheckerName.learner
        match c.learnerCheck with
        | some op => ([op], log)
        | none =>
          let log := log.consult CheckerName.replica
          match c.replicaCheck with
          | some op =>
            if c.operatorCountReplica < c.getReplicaScheduleLimit then
              ([op], log)
            else
              let log := log.inc c.replicaCheckerGetType ActionCategory.replica
              let log := log.put region.GetID
              mergeStep c log
          | none => mergeStep c log

/-- The controller-owned mutable collections an external observer can
enumerate: the waiting list (`regionWaitingList.Elems()`) and the priority
checker's queue (`GetPriorityRegions()`). -/
structure ControllerState where
  waitingList : List Nat
  priorityQueue : List Nat
deriving DecidableEq, Repr

/-- Modelled from the spec: the bounded waiting list is "a fixed-capacity
key-set cache" with "oldest-inserted evicted on overflow" (the
`pkg/cache` implementation is outside the embedded files).  `put` re-adds
the key most-recently and drops the oldest entries beyond `capacity`. -/
def cachePut (capacity : Nat) (l : List Nat) (k : Nat) : List Nat :=
  let l := (l.filter (fun x => x ≠ k)) ++ [k]
  if capacity < l.length then l.drop (l.length - capacity) else l

/-- Default length of the waiting list (`DefaultCacheSize`,
checker_controller.go:32). -/
def DefaultCacheSize : Nat := 1000

/-- Replay the effect log of a `CheckRegion` call onto the controller's
observable collections: each `Put` goes into the waiting list; nothing in
`CheckRegion` touches the priority queue. -/
def applyCheckLog (st : ControllerState) (log : CheckLog) : ControllerState :=
  { st with waitingList := log.waitingPuts.foldl (cachePut DefaultCacheSize) st.waitingList }

/-- The middle of the chain (the rules / non-rules branch of
`CheckRegion`) produces no early return: with placement rules enabled,
any rule proposal behind a present fit is limit-blocked; with them
disabled, the learner declines and any replica proposal is limit-blocked.
Given that the joint-state and split checkers also declined, `CheckRegion`
reaches the merge block exactly in this situation. -/
def midReturnsNone (c : CheckerEnv) : Prop :=
  if c.isPlacementRulesEnabled then
    ∀ fit, c.priorityCheck = some fit →
      ∀ op, c.ruleCheckWithFit fit = some op →
        c.getReplicaScheduleLimit ≤ c.operatorCountReplica
  else
    c.learnerCheck = none ∧
    ∀ op, c.replicaCheck = some op →
      c.getReplicaScheduleLimit ≤ c.operatorCountReplica

/-! ### Construction (`NewCheckerController`) and pause-control lookup

The checker constructors (`checker.New*`) live outside the embedded files;
each is modelled as recording the arguments the controller passes it, plus
a fresh (zero-valued) embedded `PauseController`, exactly as the Go
constructors are invoked from `NewCheckerController`
(checker_controller.go:51-66). -/

/-- Modelled from the spec: a per-checker "Pause Control" on/off switch
(`checker.PauseController`, outside the embedded files); its internals do
not matter to the controller, which only hands out a reference to it. -/
structure PauseController where
  paused : Bool := false
deriving DecidableEq, Repr

/-- Opaque `context.Context`. -/
structure Context where
  ctxId : Nat
deriving DecidableEq, Repr

/-- `*config.PersistOptions`: the three getters the controller core uses. -/
structure PersistOptions where
  isPlacementRulesEnabled : Bool
  getReplicaScheduleLimit : Nat
  getMergeScheduleLimit : Nat
deriving DecidableEq, Repr

/-- Opaque `opt.Cluster`; the constructor reads its `GetOpts()`. -/
structure Cluster where
  clusterId : Nat
  getOpts : PersistOptions
deriving DecidableEq, Repr

/-- Opaque `*placement.RuleManager`. -/
structure RuleManager where
  rmId : Nat
deriving DecidableEq, Repr

/-- Opaque `*labeler.RegionLabeler`. -/
structure RegionLabeler where
  labelerId : Nat
deriving DecidableEq, Repr

/-- Opaque `*OperatorController`. -/
structure OperatorController where
  ocId : Nat
deriving DecidableEq, Repr

/-- The waiting-list cache handle (`cache.Cache`); only its capacity is
visible to this core. -/
structure Cache where
  capacity : Nat
deriving DecidableEq, Repr

/-- `cache.NewDefaultCache(size)` (outside the embedded files): a bounded
cache of the given capacity. -/
def NewDefaultCache (size : Nat) : Cache := ⟨size⟩

/-- `checker.NewLearnerChecker(cluster)`: records its argument. -/
structure LearnerChecker where
  cluster : Cluster
  PauseController : PauseController
deriving DecidableEq, Repr

def NewLearnerChecker (cluster : Cluster) : LearnerChecker :=
  ⟨cluster, {}⟩

/-- `checker.NewReplicaChecker(cluster, regionWaitingList)`: records its
arguments — in particular which waiting-list instance was wired in. -/
structure ReplicaChecker where
  cluster : Cluster
  regionWaitingList : Cache
  PauseController : PauseController
deriving DecidableEq, Repr

def NewReplicaChecker (cluster : Cluster) (regionWaitingList : Cache) : ReplicaChecker :=
  ⟨cluster, regionWaitingList, {}⟩

/-- `checker.NewRuleChecker(cluster, ruleManager, regionWaitingList)`. -/
structure RuleChecker where
  cluster : Cluster
  ruleManager : RuleManager
  regionWaitingList : Cache
  PauseController : PauseController
deriving DecidableEq, Repr

def NewRuleChecker (cluster : Cluster) (ruleManager : RuleManager)
    (regionWaitingList : Cache) : RuleChecker :=
  ⟨cluster, ruleManager, regionWaitingList, {}⟩

/-- `checker.NewSplitChecker(cluster, ruleManager, labeler)`. -/
structure SplitChecker where
  cluster : Cluster
  ruleManager : RuleManager
  labeler : RegionLabeler
  PauseController : PauseController
deriving DecidableEq, Repr

def NewSplitChecker (cluster : Cluster) (ruleManager : RuleManager)
    (labeler : RegionLabeler) : SplitChecker :=
  ⟨cluster, ruleManager, labeler, {}⟩

/-- `checker.NewMergeChecker(ctx, cluster)`. -/
structure MergeChecker where
  ctx : Context
  cluster : Cluster
  PauseController : PauseController
deriving DecidableEq, Repr

def NewMergeChecker (ctx : Context) (cluster : Cluster) : MergeChecker :=
  ⟨ctx, cluster, {}⟩

/-- `checker.NewJointStateChecker(cluster)`. -/
structure JointStateChecker where
  cluster : Cluster
  PauseController : PauseController
deriving DecidableEq, Repr

def NewJointStateChecker (cluster : Cluster) : JointStateChecker :=
  ⟨cluster, {}⟩

/-- `checker.NewPriorityChecker(cluster)`. -/
structure PriorityChecker where
  cluster : Cluster
  PauseController : PauseController
deriving DecidableEq, Repr

def NewPriorityChecker (cluster : Cluster) : PriorityChecker :=
  ⟨cluster, {}⟩

/-- `CheckerController` (checker_controller.go:35-47). -/
structure CheckerController where
  cluster : Cluster
  opts : PersistOptions
  opController : OperatorController
  learnerChecker : LearnerChecker
  replicaChecker : ReplicaChecker
  ruleChecker : RuleChecker
  splitChecker : SplitChecker
  mergeChecker : MergeChecker
  jointStateChecker : JointStateChecker
  priorityChecker : PriorityChecker
  regionWaitingList : Cache
deriving DecidableEq, Repr

/-- `NewCheckerController` (checker_controller.go:51-66): allocates one
waiting list of capacity `DefaultCacheSize` and wires the same instance
into the replica checker, the rule checker and the controller itself;
builds each of the seven checkers once; always returns a fully built
controller (no error path). -/
def NewCheckerController (ctx : Context) (cluster : Cluster)
    (ruleManager : RuleManager) (labeler : RegionLabeler)
    (opController : OperatorController) : CheckerController :=
  let regionWaitingList := NewDefaultCache DefaultCacheSize
  { cluster := cluster
    opts := cluster.getOpts
    opController := opController
    learnerChecker := NewLearnerChecker cluster
    replicaChecker := NewReplicaChecker cluster regionWaitingList
    ruleChecker := NewRuleChecker cluster ruleManager regionWaitingList
    splitChecker := NewSplitChecker cluster ruleManager labeler
    mergeChecker := NewMergeChecker ctx cluster
    jointStateChecker := NewJointStateChecker cluster
    priorityChecker := NewPriorityChecker cluster
    regionWaitingList := regionWaitingList }

/-- The error values this core can surface (`errs.ErrCheckerNotFound`). -/
inductive SchedError
  | checkerNotFound
deriving DecidableEq, Repr

/-- `CheckerController.GetPauseController`
(checker_controller.go:156-175): a switch over the exact checker name,
returning that checker's embedded pause controller, and
`ErrCheckerNotFound` for anything else. -/
def GetPauseController (c : CheckerController) (name : String) :
    Except SchedError PauseController :=
  match name with
  | "learner" => Except.ok c.learnerChecker.PauseController
  | "replica" => Except.ok c.replicaChecker.PauseController
  | "rule" => Except.ok c.ruleChecker.PauseController
  | "split" => Except.ok c.splitChecker.PauseController
  | "merge" => Except.ok c.mergeChecker.PauseController
  | "joint-state" => Except.ok c.jointStateChecker.PauseController
  | "priority" => Except.ok c.priorityChecker.PauseController
  | _ => Except.error SchedError.checkerNotFound

end PD

namespace PDStats

/-! ### `server/statistics/flowkind.go` -/

/-- `RegionStatKind` (defined elsewhere in the statistics package; the six
values `FlowKind.RegionStats` mentions). -/
inductive RegionStatKind
  | RegionReadBytes
  | RegionReadKeys
  | RegionReadQuery
  | RegionWriteBytes
  | RegionWriteKeys
  | RegionWriteQuery
deriving DecidableEq, Repr

/-- `FlowKind` is a `uint32`; values beyond `WriteFlow`/`ReadFlow` are
representable, so both methods are total over all of them. -/
abbrev FlowKind := Nat

/-- `WriteFlow FlowKind = iota` (flowkind.go:22). -/
def WriteFlow : FlowKind := 0

/-- `ReadFlow` (flowkind.go:23). -/
def ReadFlow : FlowKind := 1

/-- `FlowKind.String` (flowkind.go:26-34): a switch on the two known
values, `"unimplemented"` otherwise. -/
def FlowKind.String (k : FlowKind) : String :=
  if k = WriteFlow then "write"
  else if k = ReadFlow then "read"
  else "unimplemented"

/-- `FlowKind.RegionStats` (flowkind.go:37-45): the write kinds for
`WriteFlow`, the read kinds for `ReadFlow`, and `nil` (the empty list)
otherwise. -/
def FlowKind.RegionStats (k : FlowKind) : List RegionStatKind :=
  if k = WriteFlow then
    [RegionStatKind.RegionWriteBytes, RegionStatKind.RegionWriteKeys,
      RegionStatKind.RegionWriteQuery]
  else if k = ReadFlow then
    [RegionStatKind.RegionReadBytes, RegionStatKind.RegionReadKeys,
      RegionStatKind.RegionReadQuery]
  else
    []

end PDStats

namespace PD

/-! ### Shared concrete inputs for witness instantiation -/

/-- A baseline call environment in which every checker declines, placement
rules are enabled, limits are open and a merge checker exists. -/
def envBase : CheckerEnv where
  isPlacementRulesEnabled := true
  getReplicaScheduleLimit := 4
  getMergeScheduleLimit := 2
  operatorCountReplica := 0
  operatorCountMerge := 0
  jointStateCheck := none
  splitCheck := none
  priorityCheck := none
  ruleCheckWithFit := fun _ => none
  learnerCheck := none
  replicaCheck := none
  mergeCheck := none
  hasMergeChecker := true
  ruleCheckerGetType := "rule-checker"
  replicaCheckerGetType := "replica-checker"
  mergeCheckerGetType := "replica-checker-merge"

/-- A concrete region. -/
def region0 : RegionInfo := ⟨42⟩

/-- A concrete environment in which the rule checker proposes operator 9
behind a present fit but the replica limit (4) is already filled. -/
def envRuleBlocked : CheckerEnv :=
  { envBase with
    priorityCheck := some ⟨1⟩
    ruleCheckWithFit := fun _ => some ⟨9⟩
    operatorCountReplica := 4 }

/-- A concrete controller built from concrete dependencies. -/
def ctrl0 : CheckerController :=
  NewCheckerController ⟨0⟩ ⟨5, ⟨true, 4, 2⟩⟩ ⟨6⟩ ⟨7⟩ ⟨8⟩

/-! ### Helper lemmas about the merge block -/

/-- The merge block never touches the waiting list. -/
theorem mergeStep_waitingPuts (c : CheckerEnv) (log : CheckLog) :
    (mergeStep c log).2.waitingPuts = log.waitingPuts := by
  by_cases hm : c.operatorCountMerge < c.getMergeScheduleLimit <;>
    cases hmc : c.hasMergeChecker <;>
    cases hmk : c.mergeCheck <;>
    simp [mergeStep, hm, hmc, hmk, CheckLog.consult, CheckLog.inc]

/-- Counter increments recorded before the merge block survive it. -/
theorem mergeStep_counterIncs_mono (c : CheckerEnv) (log : CheckLog)
    (p : String × ActionCategory) (hp : p ∈ log.counterIncs) :
    p ∈ (mergeStep c log).2.counterIncs := by
  by_cases hm : c.operatorCountMerge < c.getMergeScheduleLimit <;>
    cases hmc : c.hasMergeChecker <;>
    cases hmk : c.mergeCheck <;>
    simp [mergeStep, hm, hmc, hmk, CheckLog.consult, CheckLog.inc, hp]

/-- The merge block returns either no operator or exactly the merge
checker's proposal. -/
theorem mergeStep_fst (c : CheckerEnv) (log : CheckLog) :
    (mergeStep c log).1 = [] ∨ c.mergeCheck = some (mergeStep c log).1 := by
  by_cases hm : c.operatorCountMerge < c.getMergeScheduleLimit <;>
    cases hmc : c.hasMergeChecker <;>
    cases hmk : c.mergeCheck <;>
    simp [mergeStep, hm, hmc, hmk, CheckLog.consult, CheckLog.inc]

/-- With a merge checker present and the merge limit reached, the merge
block returns nothing, consults nobody, and increments the merge-labelled
counter. -/
theorem mergeStep_blocked (c : CheckerEnv) (log : CheckLog)
    (hmc : c.hasMergeChecker = true)
    (hlim : c.getMergeScheduleLimit ≤ c.operatorCountMerge) :
    mergeStep c log = ([], log.inc c.mergeCheckerGetType ActionCategory.merge) := by
  have h : ¬ c.operatorCountMerge < c.getMergeScheduleLimit := Nat.not_lt.mpr hlim
  simp [mergeStep, hmc, h]

/-- With a merge checker present and the merge limit open, the merge block
consults the merge checker and returns exactly its proposal. -/
theorem mergeStep_allowed (c : CheckerEnv) (log : CheckLog) (ops : List Operator)
    (hmc : c.hasMergeChecker = true)
    (hlim : c.operatorCountMerge < c.getMergeScheduleLimit)
    (hk : c.mergeCheck = some ops) :
    mergeStep c log = (ops, log.consult CheckerName.merge) := by
  simp [mergeStep, hmc, hlim, hk]

/-- Anything consulted after the merge block was either consulted before
it or is the merge checker itself. -/
theorem mergeStep_consulted_subset (c : CheckerEnv) (log : CheckLog)
    (x : CheckerName) (hx : x ∈ (mergeStep c log).2.consulted) :
    x ∈ log.consulted ∨ x = CheckerName.merge := by
  by_cases hm : c.operatorCountMerge < c.getMergeScheduleLimit <;>
    cases hmc : c.hasMergeChecker <;>
    cases hmk : c.mergeCheck <;>
    simp [mergeStep, hm, hmc, hmk, CheckLog.consult, CheckLog.inc] at hx <;>
    tauto

/-- Which checkers one `CheckRegion` call can consult: always possibly
the joint-state, split and merge checkers; the priority checker (and,
only behind a present fit, the rule checker) solely with placement rules
enabled; the learner and replica checkers solely with them disabled. -/
theorem checkRegion_consulted_cases (c : CheckerEnv) (region : RegionInfo)
    (x : CheckerName) (hx : x ∈ (CheckRegion c region).2.consulted) :
    x = CheckerName.jointState ∨ x = CheckerName.split ∨
    x = CheckerName.merge ∨
    (c.isPlacementRulesEnabled = true ∧
      (x = CheckerName.priority ∨
        (x = CheckerName.rule ∧ c.priorityCheck ≠ none))) ∨
    (c.isPlacementRulesEnabled = false ∧
      (x = CheckerName.learner ∨ x = CheckerName.replica)) := by
  cases hj : c.jointStateCheck with
  | some op =>
    simp [CheckRegion, hj, CheckLog.consult] at hx
    tauto
  | none =>
  cases hs : c.splitCheck with
  | some op =>
    simp [CheckRegion, hj, hs, CheckLog.consult] at hx
    tauto
  | none =>
  cases hen : c.isPlacementRulesEnabled with
  | true =>
    cases hp : c.priorityCheck with
    | none =>
      have heq : CheckRegion c region = mergeStep c
          ⟨[CheckerName.jointState, CheckerName.split, CheckerName.priority],
            [], []⟩ := by
        simp [CheckRegion, hj, hs, hen, hp, CheckLog.consult]
      rw [heq] at hx
      rcases mergeStep_consulted_subset c _ x hx with h | h
      · simp at h; tauto
      · tauto
    | some fit =>
      cases hr : c.ruleCheckWithFit fit with
      | none =>
        have heq : CheckRegion c region = mergeStep c
            ⟨[CheckerName.jointState, CheckerName.split, CheckerName.priority,
                CheckerName.rule], [], []⟩ := by
          simp [CheckRegion, hj, hs, hen, hp, hr, CheckLog.consult]
        rw [heq] at hx
        rcases mergeStep_consulted_subset c _ x hx with h | h
        · simp at h
          rcases h with h | h | h | h <;> simp [h, hen, hp]
        · tauto
      | some op =>
        by_cases hlim : c.operatorCountReplica < c.getReplicaScheduleLimit
        · simp [CheckRegion, hj, hs, hen, hp, hr, hlim, CheckLog.consult] at hx
          rcases hx with h | h | h | h <;> simp [h, hen, hp]
        · have heq : CheckRegion c region = mergeStep c
              ⟨[CheckerName.jointState, CheckerName.split, CheckerName.priority,
                  CheckerName.rule], [region.GetID],
                [(c.ruleCheckerGetType, ActionCategory.replica)]⟩ := by
            simp [CheckRegion, hj, hs, hen, hp, hr, hlim, CheckLog.consult,
              CheckLog.inc, CheckLog.put]
          rw [heq] at hx
          rcases mergeStep_consulted_subset c _ x hx with h | h
          · simp at h
            rcases h with h | h | h | h <;> simp [h, hen, hp]
          · tauto
  | false =>
    cases hl : c.learnerCheck with
    | some op =>
      simp [CheckRegion, hj, hs, hen, hl, CheckLog.consult] at hx
      rcases hx with h | h | h <;> simp [h, hen]
    | none =>
      cases hr : c.replicaCheck with
      | none =>
        have heq : CheckRegion c region = mergeStep c
            ⟨[CheckerName.jointState, CheckerName.split, CheckerName.learner,
                CheckerName.replica], [], []⟩ := by
          simp [CheckRegion, hj, hs, hen, hl, hr, CheckLog.consult]
        rw [heq] at hx
        rcases mergeStep_consulted_subset c _ x hx with h | h
        · simp at h
          rcases h with h | h | h | h <;> simp [h, hen]
        · tauto
      | some op =>
        by_cases hlim : c.operatorCountReplica < c.getReplicaScheduleLimit
        · simp [CheckRegion, hj, hs, hen, hl, hr, hlim, CheckLog.consult] at hx
          rcases hx with h | h | h | h <;> simp [h, hen]
        · have heq : CheckRegion c region = mergeStep c
              ⟨[CheckerName.jointState, CheckerName.split, CheckerName.learner,
                  CheckerName.replica], [region.GetID],
                [(c.replicaCheckerGetType, ActionCategory.replica)]⟩ := by
            simp [CheckRegion, hj, hs, hen, hl, hr, hlim, CheckLog.consult,
              CheckLog.inc, CheckLog.put]
          rw [heq] at hx
          rcases mergeStep_consulted_subset c _ x hx with h | h
          · simp at h
            rcases h with h | h | h | h <;> simp [h, hen]
          · tauto

/-- Consultations recorded before the merge block survive it. -/
theorem mergeStep_consulted_mono (c : CheckerEnv) (log : CheckLog)
    (x : CheckerName) (hx : x ∈ log.consulted) :
    x ∈ (mergeStep c log).2.consulted := by
  by_cases hm : c.operatorCountMerge < c.getMergeScheduleLimit <;>
    cases hmc : c.hasMergeChecker <;>
    cases hmk : c.mergeCheck <;>
    simp [mergeStep, hm, hmc, hmk, CheckLog.consult, CheckLog.inc, hx]

/-- The only counter increment the merge block can add is the
merge-labelled one, and only when a merge checker exists. -/
theorem mergeStep_counterIncs_cases (c : CheckerEnv) (log : CheckLog)
    (p : String × ActionCategory) (hp : p ∈ (mergeStep c log).2.counterIncs) :
    p ∈ log.counterIncs ∨
    (p = (c.mergeCheckerGetType, ActionCategory.merge) ∧
      c.hasMergeChecker = true) := by
  by_cases hm : c.operatorCountMerge < c.getMergeScheduleLimit <;>
    cases hmc : c.hasMergeChecker <;>
    cases hmk : c.mergeCheck <;>
    simp [mergeStep, hm, hmc, hmk, CheckLog.consult, CheckLog.inc] at hp <;>
    tauto

/-- When the joint-state and split checkers decline and the middle of the
chain produces no early return, `CheckRegion` is the merge block applied
to a log that mentions neither a merge consultation nor a merge-labelled
counter increment. -/
theorem checkRegion_fallthrough (c : CheckerEnv) (region : RegionInfo)
    (hj : c.jointStateCheck = none) (hs : c.splitCheck = none)
    (hmid : midReturnsNone c) :
    ∃ log : CheckLog, CheckRegion c region = mergeStep c log ∧
      CheckerName.merge ∉ log.consulted ∧
      ∀ ty : String, (ty, ActionCategory.merge) ∉ log.counterIncs := by
  cases hen : c.isPlacementRulesEnabled with
  | true =>
    cases hp : c.priorityCheck with
    | none =>
      exact ⟨⟨[CheckerName.jointState, CheckerName.split, CheckerName.priority],
        [], []⟩,
        by simp [CheckRegion, hj, hs, hen, hp, CheckLog.consult],
        by decide, by simp⟩
    | some fit =>
      cases hr : c.ruleCheckWithFit fit with
      | none =>
        exact ⟨⟨[CheckerName.jointState, CheckerName.split, CheckerName.priority,
          CheckerName.rule], [], []⟩,
          by simp [CheckRegion, hj, hs, hen, hp, hr, CheckLog.consult],
          by decide, by simp⟩
      | some op =>
        simp only [midReturnsNone, hen, if_true] at hmid
        have hlim := hmid fit hp op hr
        have h' : ¬ c.operatorCountReplica < c.getReplicaScheduleLimit :=
          Nat.not_lt.mpr hlim
        refine ⟨⟨[CheckerName.jointState, CheckerName.split, CheckerName.priority,
          CheckerName.rule], [region.GetID],
          [(c.ruleCheckerGetType, ActionCategory.replica)]⟩,
          by simp [CheckRegion, hj, hs, hen, hp, hr, h', CheckLog.consult,
            CheckLog.inc, CheckLog.put],
          by simp, by simp⟩
  | false =>
    simp only [midReturnsNone, hen, Bool.false_eq_true, if_false] at hmid
    obtain ⟨hl, hrep⟩ := hmid
    cases hr : c.replicaCheck with
    | none =>
      exact ⟨⟨[CheckerName.jointState, CheckerName.split, CheckerName.learner,
        CheckerName.replica], [], []⟩,
        by simp [CheckRegion, hj, hs, hen, hl, hr, CheckLog.consult],
        by decide, by simp⟩
    | some op =>
      have hlim := hrep op hr
      have h' : ¬ c.operatorCountReplica < c.getReplicaScheduleLimit :=
        Nat.not_lt.mpr hlim
      refine ⟨⟨[CheckerName.jointState, CheckerName.split, CheckerName.learner,
        CheckerName.replica], [region.GetID],
        [(c.replicaCheckerGetType, ActionCategory.replica)]⟩,
        by simp [CheckRegion, hj, hs, hen, hl, hr, h', CheckLog.consult,
          CheckLog.inc, CheckLog.put],
        by simp, by simp⟩

/-- When the joint-state and split checkers decline but the middle of the
chain does return, `CheckRegion` ends as a single-operator result whose
log mentions no merge consultation and no counter increment at all. -/
theorem checkRegion_mid_return (c : CheckerEnv) (region : RegionInfo)
    (hj : c.jointStateCheck = none) (hs : c.splitCheck = none)
    (hmid : ¬ midReturnsNone c) :
    ∃ (op : Operator) (log : CheckLog), CheckRegion c region = ([op], log) ∧
      CheckerName.merge ∉ log.consulted ∧ log.counterIncs = [] := by
  cases hen : c.isPlacementRulesEnabled with
  | true =>
    cases hp : c.priorityCheck with
    | none => exact absurd (by simp [midReturnsNone, hen, hp]) hmid
    | some fit =>
      cases hr : c.ruleCheckWithFit fit with
      | none =>
        refine absurd ?_ hmid
        simp only [midReturnsNone, hen, if_true]
        intro fit' hfit' op hop
        rw [hp] at hfit'
        cases hfit'
        rw [hr] at hop
        cases hop
      | some op =>
        by_cases hlim : c.operatorCountReplica < c.getReplicaScheduleLimit
        · refine ⟨op, ⟨[CheckerName.jointState, CheckerName.split,
            CheckerName.priority, CheckerName.rule], [], []⟩,
            by simp [CheckRegion, hj, hs, hen, hp, hr, hlim, CheckLog.consult],
            by decide, rfl⟩
        · refine absurd ?_ hmid
          simp only [midReturnsNone, hen, if_true]
          intro fit' hfit' op' hop'
          rw [hp] at hfit'
          cases hfit'
          rw [hr] at hop'
          cases hop'
          exact Nat.not_lt.mp hlim
  | false =>
    cases hl : c.learnerCheck with
    | some op =>
      exact ⟨op, ⟨[CheckerName.jointState, CheckerName.split,
        CheckerName.learner], [], []⟩,
        by simp [CheckRegion, hj, hs, hen, hl, CheckLog.consult],
        by decide, rfl⟩
    | none =>
      cases hr : c.replicaCheck with
      | none =>
        refine absurd ?_ hmid
        simp only [midReturnsNone, hen, Bool.false_eq_true, if_false]
        refine ⟨hl, fun op hop => ?_⟩
        rw [hr] at hop
        cases hop
      | some op =>
        by_cases hlim : c.operatorCountReplica < c.getReplicaScheduleLimit
        · refine ⟨op, ⟨[CheckerName.jointState, CheckerName.split,
            CheckerName.learner, CheckerName.replica], [], []⟩,
            by simp [CheckRegion, hj, hs, hen, hl, hr, hlim, CheckLog.consult],
            by decide, rfl⟩
        · refine absurd ?_ hmid
          simp only [midReturnsNone, hen, Bool.false_eq_true, if_false]
          refine ⟨hl, fun op' hop' => ?_⟩
          rw [hr] at hop'
          cases hop'
          exact Nat.not_lt.mp hlim

/-- A merge block entered with an empty put-list and a declining merge
checker returns nothing and leaves any controller state fixed. -/
theorem mergeStep_noop (c : CheckerEnv) (log : CheckLog)
    (hm : c.mergeCheck = none) (hputs : log.waitingPuts = []) :
    (mergeStep c log).1 = [] ∧ (mergeStep c log).2.waitingPuts = [] ∧
    ∀ st : ControllerState, applyCheckLog st (mergeStep c log).2 = st := by
  have h1 : (mergeStep c log).1 = [] := by
    rcases mergeStep_fst c log with h | h
    · exact h
    · rw [hm] at h
      cases h
  have h2 : (mergeStep c log).2.waitingPuts = [] := by
    rw [mergeStep_waitingPuts, hputs]
  exact ⟨h1, h2, fun st => by simp [applyCheckLog, h2]⟩

/-- Every `CheckRegion` call either returns early with a single operator
or ends in the merge block. -/
theorem checkRegion_shape (c : CheckerEnv) (region : RegionInfo) :
    (∃ op log, CheckRegion c region = ([op], log)) ∨
    (∃ log, CheckRegion c region = mergeStep c log) := by
  cases hj : c.jointStateCheck with
  | some op =>
    exact Or.inl ⟨op, ⟨[CheckerName.jointState], [], []⟩,
      by simp [CheckRegion, hj, CheckLog.consult]⟩
  | none =>
  cases hs : c.splitCheck with
  | some op =>
    exact Or.inl ⟨op, ⟨[CheckerName.jointState, CheckerName.split], [], []⟩,
      by simp [CheckRegion, hj, hs, CheckLog.consult]⟩
  | none =>
  cases hen : c.isPlacementRulesEnabled with
  | true =>
    cases hp : c.priorityCheck with
    | none =>
      exact Or.inr ⟨⟨[CheckerName.jointState, CheckerName.split,
        CheckerName.priority], [], []⟩,
        by simp [CheckRegion, hj, hs, hen, hp, CheckLog.consult]⟩
    | some fit =>
      cases hr : c.ruleCheckWithFit fit with
      | none =>
        exact Or.inr ⟨⟨[CheckerName.jointState, CheckerName.split,
          CheckerName.priority, CheckerName.rule], [], []⟩,
          by simp [CheckRegion, hj, hs, hen, hp, hr, CheckLog.consult]⟩
      | some op =>
        by_cases hlim : c.operatorCountReplica < c.getReplicaScheduleLimit
        · exact Or.inl ⟨op, ⟨[CheckerName.jointState, CheckerName.split,
            CheckerName.priority, CheckerName.rule], [], []⟩,
            by simp [CheckRegion, hj, hs, hen, hp, hr, hlim, CheckLog.consult]⟩
        · exact Or.inr ⟨⟨[CheckerName.jointState, CheckerName.split,
            CheckerName.priority, CheckerName.rule], [region.GetID],
            [(c.ruleCheckerGetType, ActionCategory.replica)]⟩,
            by simp [CheckRegion, hj, hs, hen, hp, hr, hlim, CheckLog.consult,
              CheckLog.inc, CheckLog.put]⟩
  | false =>
    cases hl : c.learnerCheck with
    | some op =>
      exact Or.inl ⟨op, ⟨[CheckerName.jointState, CheckerName.split,
        CheckerName.learner], [], []⟩,
        by simp [CheckRegion, hj, hs, hen, hl, CheckLog.consult]⟩
    | none =>
      cases hr : c.replicaCheck with
      | none =>
        exact Or.inr ⟨⟨[CheckerName.jointState, CheckerName.split,
          CheckerName.learner, CheckerName.replica], [], []⟩,
          by simp [CheckRegion, hj, hs, hen, hl, hr, CheckLog.consult]⟩
      | some op =>
        by_cases hlim : c.operatorCountReplica < c.getReplicaScheduleLimit
        · exact Or.inl ⟨op, ⟨[CheckerName.jointState, CheckerName.split,
            CheckerName.learner, CheckerName.replica], [], []⟩,
            by simp [CheckRegion, hj, hs, hen, hl, hr, hlim, CheckLog.consult]⟩
        · exact Or.inr ⟨⟨[CheckerName.jointState, CheckerName.split,
            CheckerName.learner, CheckerName.replica], [region.GetID],
            [(c.replicaCheckerGetType, ActionCategory.replica)]⟩,
            by simp [CheckRegion, hj, hs, hen, hl, hr, hlim, CheckLog.consult,
              CheckLog.inc, CheckLog.put]⟩

/-! ### Claims about `CheckRegion` -/

/-- C1: when the joint-state checker proposes an operator, `CheckRegion`
returns exactly that single operator, consults no other checker, and
leaves the waiting list and counters untouched — whatever every
lower-priority checker would have proposed. -/
theorem jointState_short_circuits (c : CheckerEnv) (region : RegionInfo)
    (op : Operator) (h : c.jointStateCheck = some op) :
    (CheckRegion c region).1 = [op] ∧
    (CheckRegion c region).2.consulted = [CheckerName.jointState] ∧
    (CheckRegion c region).2.waitingPuts = [] ∧
    (CheckRegion c region).2.counterIncs = [] := by
  simp [CheckRegion, h, CheckLog.consult]

/-- Witness for C1: a concrete environment in which the joint-state
checker proposes operator 7 while the split, rule, learner, replica and
merge checkers would each also propose something. -/
theorem jointState_short_circuits_witness :
    ({ envBase with
        jointStateCheck := some ⟨7⟩
        splitCheck := some ⟨8⟩
        priorityCheck := some ⟨1⟩
        ruleCheckWithFit := fun _ => some ⟨9⟩
        mergeCheck := some [⟨10⟩, ⟨11⟩] } : CheckerEnv).jointStateCheck
        = some ⟨7⟩ ∧
    (CheckRegion { envBase with
        jointStateCheck := some ⟨7⟩
        splitCheck := some ⟨8⟩
        priorityCheck := some ⟨1⟩
        ruleCheckWithFit := fun _ => some ⟨9⟩
        mergeCheck := some [⟨10⟩, ⟨11⟩] } region0).1 = [⟨7⟩] :=
  ⟨rfl, (jointState_short_circuits _ region0 ⟨7⟩ rfl).1⟩

/-- C2: when a replica-category fix is proposed — by the rule checker
behind a present priority fit (rules enabled) or by the replica checker
(rules disabled) — the strict `<` gate decides: under the limit the fix is
returned as a single-element result with no waiting-list change; at or
over the limit the fix is not returned, the region id is put into the
waiting list, and the consulted checker's replica-labelled counter is
incremented. -/
theorem replica_limit_gate (c : CheckerEnv) (region : RegionInfo)
    (op : Operator) (ty : String)
    (hj : c.jointStateCheck = none) (hs : c.splitCheck = none)
    (hbranch :
      (c.isPlacementRulesEnabled = true ∧
        (∃ fit, c.priorityCheck = some fit ∧ c.ruleCheckWithFit fit = some op) ∧
        ty = c.ruleCheckerGetType) ∨
      (c.isPlacementRulesEnabled = false ∧ c.learnerCheck = none ∧
        c.replicaCheck = some op ∧ ty = c.replicaCheckerGetType))
    (hnm : ∀ l, c.mergeCheck = some l → op ∉ l) :
    (c.operatorCountReplica < c.getReplicaScheduleLimit →
      (CheckRegion c region).1 = [op] ∧
      (CheckRegion c region).2.waitingPuts = []) ∧
    (c.getReplicaScheduleLimit ≤ c.operatorCountReplica →
      op ∉ (CheckRegion c region).1 ∧
      (CheckRegion c region).2.waitingPuts = [region.GetID] ∧
      (ty, ActionCategory.replica) ∈ (CheckRegion c region).2.counterIncs) := by
  rcases hbranch with ⟨hen, ⟨fit, hfit, hrule⟩, hty⟩ | ⟨hen, hl, hr, hty⟩
  · constructor
    · intro h
      simp [CheckRegion, hj, hs, hen, hfit, hrule, h, CheckLog.consult]
    · intro h
      have h' : ¬ c.operatorCountReplica < c.getReplicaScheduleLimit :=
        Nat.not_lt.mpr h
      have heq : CheckRegion c region = mergeStep c
          ⟨[CheckerName.jointState, CheckerName.split, CheckerName.priority,
              CheckerName.rule],
            [region.GetID], [(c.ruleCheckerGetType, ActionCategory.replica)]⟩ := by
        simp [CheckRegion, hj, hs, hen, hfit, hrule, h', CheckLog.consult,
          CheckLog.inc, CheckLog.put]
      rw [heq]
      refine ⟨?_, ?_, ?_⟩
      · rcases mergeStep_fst c _ with he | he
        · rw [he]; exact List.not_mem_nil op
        · intro hmem
          exact hnm _ he hmem
      · rw [mergeStep_waitingPuts]
      · exact mergeStep_counterIncs_mono _ _ _ (by simp [hty])
  · constructor
    · intro h
      simp [CheckRegion, hj, hs, hen, hl, hr, h, CheckLog.consult]
    · intro h
      have h' : ¬ c.operatorCountReplica < c.getReplicaScheduleLimit :=
        Nat.not_lt.mpr h
      have heq : CheckRegion c region = mergeStep c
          ⟨[CheckerName.jointState, CheckerName.split, CheckerName.learner,
              CheckerName.replica],
            [region.GetID], [(c.replicaCheckerGetType, ActionCategory.replica)]⟩ := by
        simp [CheckRegion, hj, hs, hen, hl, hr, h', CheckLog.consult,
          CheckLog.inc, CheckLog.put]
      rw [heq]
      refine ⟨?_, ?_, ?_⟩
      · rcases mergeStep_fst c _ with he | he
        · rw [he]; exact List.not_mem_nil op
        · intro hmem
          exact hnm _ he hmem
      · rw [mergeStep_waitingPuts]
      · exact mergeStep_counterIncs_mono _ _ _ (by simp [hty])

/-- Witness for C2: rules enabled, the rule checker proposes operator 9;
with in-flight count 3 < limit 4 the operator is returned, and the same
environment at count 4 = limit blocks it into the waiting list. -/
theorem replica_limit_gate_witness :
    (({ envBase with
        priorityCheck := some ⟨1⟩
        ruleCheckWithFit := fun _ => some ⟨9⟩
        operatorCountReplica := 3 } : CheckerEnv).operatorCountReplica < 4 ∧
      (CheckRegion { envBase with
        priorityCheck := some ⟨1⟩
        ruleCheckWithFit := fun _ => some ⟨9⟩
        operatorCountReplica := 3 } region0).1 = [⟨9⟩]) ∧
    ((4:Nat) ≤ ({ envBase with
        priorityCheck := some ⟨1⟩
        ruleCheckWithFit := fun _ => some ⟨9⟩
        operatorCountReplica := 4 } : CheckerEnv).operatorCountReplica ∧
      (CheckRegion { envBase with
        priorityCheck := some ⟨1⟩
        ruleCheckWithFit := fun _ => some ⟨9⟩
        operatorCountReplica := 4 } region0).2.waitingPuts = [region0.GetID]) :=
  ⟨⟨by decide,
      ((replica_limit_gate _ region0 ⟨9⟩ "rule-checker" rfl rfl
          (Or.inl ⟨rfl, ⟨⟨1⟩, rfl, rfl⟩, rfl⟩)
          (fun l hl => by simp [envBase] at hl)).1 (by decide)).1⟩,
    ⟨by decide,
      ((replica_limit_gate _ region0 ⟨9⟩ "rule-checker" rfl rfl
          (Or.inl ⟨rfl, ⟨⟨1⟩, rfl, rfl⟩, rfl⟩)
          (fun l hl => by simp [envBase] at hl)).2 (by decide)).2.1⟩⟩

/-- C3: the merge block runs exactly when no earlier step returned
(`midReturnsNone`, given that the joint-state and split checkers
declined); there the limit is checked before the merge checker: a reached
merge block at or over the merge limit increments the merge-labelled
counter, never consults the merge checker and yields no action, while an
open limit returns the merge checker's proposal whole; and when an
earlier step does return, no merge consultation or merge-labelled
increment happens. -/
theorem merge_block_behaviour (c : CheckerEnv) (region : RegionInfo)
    (hj : c.jointStateCheck = none) (hs : c.splitCheck = none)
    (hmc : c.hasMergeChecker = true) :
    (midReturnsNone c →
      (c.getMergeScheduleLimit ≤ c.operatorCountMerge →
        (CheckRegion c region).1 = [] ∧
        CheckerName.merge ∉ (CheckRegion c region).2.consulted ∧
        (c.mergeCheckerGetType, ActionCategory.merge) ∈
          (CheckRegion c region).2.counterIncs) ∧
      (c.operatorCountMerge < c.getMergeScheduleLimit →
        ∀ ops, c.mergeCheck = some ops → (CheckRegion c region).1 = ops)) ∧
    (¬ midReturnsNone c →
      CheckerName.merge ∉ (CheckRegion c region).2.consulted ∧
      ∀ ty : String,
        (ty, ActionCategory.merge) ∉ (CheckRegion c region).2.counterIncs) := by
  constructor
  · intro hmid
    obtain ⟨log, heq, hcons, hincs⟩ := checkRegion_fallthrough c region hj hs hmid
    constructor
    · intro hlim
      rw [heq, mergeStep_blocked c log hmc hlim]
      refine ⟨rfl, hcons, ?_⟩
      simp [CheckLog.inc]
    · intro hlim ops hops
      rw [heq, mergeStep_allowed c log ops hmc hlim hops]
  · intro hmid
    obtain ⟨op, log, heq, hcons, hincs⟩ := checkRegion_mid_return c region hj hs hmid
    rw [heq]
    exact ⟨hcons, fun ty => by simp [hincs]⟩

/-- Witness for C3: every checker ahead of merge declines; with in-flight
merge count 2 = limit 2 the merge-labelled counter fires and nothing is
returned, and with count 0 < limit 2 the merge checker's two-operator
proposal is returned whole. -/
theorem merge_block_behaviour_witness :
    (midReturnsNone { envBase with
        mergeCheck := some [⟨10⟩, ⟨11⟩]
        operatorCountMerge := 2 } ∧
      (2:Nat) ≤ ({ envBase with
        mergeCheck := some [⟨10⟩, ⟨11⟩]
        operatorCountMerge := 2 } : CheckerEnv).operatorCountMerge ∧
      (CheckRegion { envBase with
        mergeCheck := some [⟨10⟩, ⟨11⟩]
        operatorCountMerge := 2 } region0).1 = [] ∧
      (CheckRegion { envBase with
        mergeCheck := some [⟨10⟩, ⟨11⟩]
        operatorCountMerge := 2 } region0).2.counterIncs
        = [("replica-checker-merge", ActionCategory.merge)]) ∧
    (CheckRegion { envBase with
        mergeCheck := some [⟨10⟩, ⟨11⟩] } region0).1 = [⟨10⟩, ⟨11⟩] := by
  have hmid1 : midReturnsNone { envBase with
      mergeCheck := some [⟨10⟩, ⟨11⟩]
      operatorCountMerge := 2 } := by
    simp [midReturnsNone, envBase]
  have hmid2 : midReturnsNone { envBase with
      mergeCheck := some [⟨10⟩, ⟨11⟩] } := by
    simp [midReturnsNone, envBase]
  refine ⟨⟨hmid1, by decide, ?_, by decide⟩, ?_⟩
  · exact (((merge_block_behaviour _ region0 rfl rfl rfl).1 hmid1).1
      (by decide)).1
  · exact ((merge_block_behaviour _ region0 rfl rfl rfl).1 hmid2).2
      (by decide) _ rfl

/-- C4: a single `CheckRegion` call consults the priority and rule
checkers only with placement rules enabled, and the learner and replica
checkers only with them disabled — never both branches in one call — and
behind an absent priority fit the rule checker is not consulted either. -/
theorem rules_branch_disjoint (c : CheckerEnv) (region : RegionInfo) :
    (c.isPlacementRulesEnabled = true →
      CheckerName.learner ∉ (CheckRegion c region).2.consulted ∧
      CheckerName.replica ∉ (CheckRegion c region).2.consulted) ∧
    (c.isPlacementRulesEnabled = false →
      CheckerName.priority ∉ (CheckRegion c region).2.consulted ∧
      CheckerName.rule ∉ (CheckRegion c region).2.consulted) ∧
    (c.priorityCheck = none →
      CheckerName.rule ∉ (CheckRegion c region).2.consulted) := by
  refine ⟨fun hen => ⟨fun hx => ?_, fun hx => ?_⟩,
    fun hen => ⟨fun hx => ?_, fun hx => ?_⟩, fun hp hx => ?_⟩ <;>
  · have h := checkRegion_consulted_cases c region _ hx
    simp_all

/-- Witness for C4: in the baseline environment placement rules are
enabled and the priority fit is absent, so neither the learner checker
nor the rule checker is consulted. -/
theorem rules_branch_disjoint_witness :
    CheckerName.learner ∉ (CheckRegion envBase region0).2.consulted ∧
    CheckerName.rule ∉ (CheckRegion envBase region0).2.consulted :=
  ⟨((rules_branch_disjoint envBase region0).1 rfl).1,
    (rules_branch_disjoint envBase region0).2.2 rfl⟩

/-- C5: every limit-exceeded counter increment `CheckRegion` emits
carries the label of the checker actually consulted on that path and the
blocked category: the rule checker's type with the replica category
(rules enabled, rule checker consulted), the replica checker's type with
the replica category (rules disabled, replica checker consulted), or the
merge checker's own type with the merge category — never a hardcoded or
mismatched pair. -/
theorem counter_labels_match (c : CheckerEnv) (region : RegionInfo)
    (p : String × ActionCategory)
    (hp : p ∈ (CheckRegion c region).2.counterIncs) :
    (p = (c.ruleCheckerGetType, ActionCategory.replica) ∧
      CheckerName.rule ∈ (CheckRegion c region).2.consulted ∧
      c.isPlacementRulesEnabled = true) ∨
    (p = (c.replicaCheckerGetType, ActionCategory.replica) ∧
      CheckerName.replica ∈ (CheckRegion c region).2.consulted ∧
      c.isPlacementRulesEnabled = false) ∨
    (p = (c.mergeCheckerGetType, ActionCategory.merge) ∧
      c.hasMergeChecker = true) := by
  cases hj : c.jointStateCheck with
  | some op => simp [CheckRegion, hj, CheckLog.consult] at hp
  | none =>
  cases hs : c.splitCheck with
  | some op => simp [CheckRegion, hj, hs, CheckLog.consult] at hp
  | none =>
  cases hen : c.isPlacementRulesEnabled with
  | true =>
    cases hpr : c.priorityCheck with
    | none =>
      have heq : CheckRegion c region = mergeStep c
          ⟨[CheckerName.jointState, CheckerName.split, CheckerName.priority],
            [], []⟩ := by
        simp [CheckRegion, hj, hs, hen, hpr, CheckLog.consult]
      rw [heq] at hp
      rcases mergeStep_counterIncs_cases c _ p hp with h | h
      · simp at h
      · tauto
    | some fit =>
      cases hr : c.ruleCheckWithFit fit with
      | none =>
        have heq : CheckRegion c region = mergeStep c
            ⟨[CheckerName.jointState, CheckerName.split, CheckerName.priority,
                CheckerName.rule], [], []⟩ := by
          simp [CheckRegion, hj, hs, hen, hpr, hr, CheckLog.consult]
        rw [heq] at hp
        rcases mergeStep_counterIncs_cases c _ p hp with h | h
        · simp at h
        · tauto
      | some op =>
        by_cases hlim : c.operatorCountReplica < c.getReplicaScheduleLimit
        · simp [CheckRegion, hj, hs, hen, hpr, hr, hlim, CheckLog.consult] at hp
        · have heq : CheckRegion c region = mergeStep c
              ⟨[CheckerName.jointState, CheckerName.split, CheckerName.priority,
                  CheckerName.rule], [region.GetID],
                [(c.ruleCheckerGetType, ActionCategory.replica)]⟩ := by
            simp [CheckRegion, hj, hs, hen, hpr, hr, hlim, CheckLog.consult,
              CheckLog.inc, CheckLog.put]
          rw [heq] at hp ⊢
          rcases mergeStep_counterIncs_cases c _ p hp with h | h
          · simp at h
            exact Or.inl ⟨h, mergeStep_consulted_mono c _ _ (by simp), rfl⟩
          · tauto
  | false =>
    cases hl : c.learnerCheck with
    | some op =>
      simp [CheckRegion, hj, hs, hen, hl, CheckLog.consult] at hp
    | none =>
      cases hr : c.replicaCheck with
      | none =>
        have heq : CheckRegion c region = mergeStep c
            ⟨[CheckerName.jointState, CheckerName.split, CheckerName.learner,
                CheckerName.replica], [], []⟩ := by
          simp [CheckRegion, hj, hs, hen, hl, hr, CheckLog.consult]
        rw [heq] at hp
        rcases mergeStep_counterIncs_cases c _ p hp with h | h
        · simp at h
        · tauto
      | some op =>
        by_cases hlim : c.operatorCountReplica < c.getReplicaScheduleLimit
        · simp [CheckRegion, hj, hs, hen, hl, hr, hlim, CheckLog.consult] at hp
        · have heq : CheckRegion c region = mergeStep c
              ⟨[CheckerName.jointState, CheckerName.split, CheckerName.learner,
                  CheckerName.replica], [region.GetID],
                [(c.replicaCheckerGetType, ActionCategory.replica)]⟩ := by
            simp [CheckRegion, hj, hs, hen, hl, hr, hlim, CheckLog.consult,
              CheckLog.inc, CheckLog.put]
          rw [heq] at hp ⊢
          rcases mergeStep_counterIncs_cases c _ p hp with h | h
          · simp at h
            exact Or.inr (Or.inl
              ⟨h, mergeStep_consulted_mono c _ _ (by simp), rfl⟩)
          · tauto

/-- Witness for C5: in `envRuleBlocked` the blocked rule proposal fires
exactly one increment, labelled with the rule checker's type and the
replica category. -/
theorem counter_labels_match_witness :
    (("rule-checker", ActionCategory.replica)
        = (envRuleBlocked.ruleCheckerGetType, ActionCategory.replica) ∧
      CheckerName.rule ∈ (CheckRegion envRuleBlocked region0).2.consulted ∧
      envRuleBlocked.isPlacementRulesEnabled = true) ∨
    (("rule-checker", ActionCategory.replica)
        = (envRuleBlocked.replicaCheckerGetType, ActionCategory.replica) ∧
      CheckerName.replica ∈ (CheckRegion envRuleBlocked region0).2.consulted ∧
      envRuleBlocked.isPlacementRulesEnabled = false) ∨
    (("rule-checker", ActionCategory.replica)
        = (envRuleBlocked.mergeCheckerGetType, ActionCategory.merge) ∧
      envRuleBlocked.hasMergeChecker = true) :=
  counter_labels_match envRuleBlocked region0
    ("rule-checker", ActionCategory.replica) (by decide)

/-! ### Claims about the administrative surface and construction -/

/-- C6: `GetPauseController` succeeds on exactly the seven checker names,
returning the corresponding checker's pause controller, and fails with
`CheckerNotFound` on every other string — no partial matching, no
default. -/
theorem getPauseController_cases (c : CheckerController) :
    GetPauseController c "learner"
      = Except.ok c.learnerChecker.PauseController ∧
    GetPauseController c "replica"
      = Except.ok c.replicaChecker.PauseController ∧
    GetPauseController c "rule" = Except.ok c.ruleChecker.PauseController ∧
    GetPauseController c "split" = Except.ok c.splitChecker.PauseController ∧
    GetPauseController c "merge" = Except.ok c.mergeChecker.PauseController ∧
    GetPauseController c "joint-state"
      = Except.ok c.jointStateChecker.PauseController ∧
    GetPauseController c "priority"
      = Except.ok c.priorityChecker.PauseController ∧
    ∀ name : String,
      name ∉ ["learner", "replica", "rule", "split", "merge", "joint-state",
        "priority"] →
      GetPauseController c name = Except.error SchedError.checkerNotFound := by
  refine ⟨rfl, rfl, rfl, rfl, rfl, rfl, rfl, ?_⟩
  intro name hname
  unfold GetPauseController
  split <;> simp_all

/-- Witness for C6: on the concrete controller, "learner" resolves to the
learner checker's pause controller and the unknown name "foo" fails with
`CheckerNotFound`. -/
theorem getPauseController_cases_witness :
    GetPauseController ctrl0 "learner"
      = Except.ok ctrl0.learnerChecker.PauseController ∧
    GetPauseController ctrl0 "foo"
      = Except.error SchedError.checkerNotFound :=
  ⟨(getPauseController_cases ctrl0).1,
    (getPauseController_cases ctrl0).2.2.2.2.2.2.2 "foo" (by decide)⟩

/-- C7: when every checker declines — joint-state, split, the active
rules or non-rules branch, and merge all propose nothing — `CheckRegion`
returns the empty result (not an error), performs no waiting-list put,
and leaves any observable controller state (waiting list and priority
queue) exactly as it was; being a pure function of its environment, a
repeat call returns the same empty result. -/
theorem checkRegion_noop (c : CheckerEnv) (region : RegionInfo)
    (hj : c.jointStateCheck = none) (hs : c.splitCheck = none)
    (hrule : ∀ fit, c.priorityCheck = some fit → c.ruleCheckWithFit fit = none)
    (hl : c.isPlacementRulesEnabled = false → c.learnerCheck = none)
    (hr : c.isPlacementRulesEnabled = false → c.replicaCheck = none)
    (hm : c.mergeCheck = none) :
    (CheckRegion c region).1 = [] ∧
    (CheckRegion c region).2.waitingPuts = [] ∧
    ∀ st : ControllerState, applyCheckLog st (CheckRegion c region).2 = st := by
  cases hen : c.isPlacementRulesEnabled with
  | true =>
    cases hp : c.priorityCheck with
    | none =>
      have heq : CheckRegion c region = mergeStep c
          ⟨[CheckerName.jointState, CheckerName.split, CheckerName.priority],
            [], []⟩ := by
        simp [CheckRegion, hj, hs, hen, hp, CheckLog.consult]
      rw [heq]
      exact mergeStep_noop c _ hm rfl
    | some fit =>
      have heq : CheckRegion c region = mergeStep c
          ⟨[CheckerName.jointState, CheckerName.split, CheckerName.priority,
              CheckerName.rule], [], []⟩ := by
        simp [CheckRegion, hj, hs, hen, hp, hrule fit hp, CheckLog.consult]
      rw [heq]
      exact mergeStep_noop c _ hm rfl
  | false =>
    have heq : CheckRegion c region = mergeStep c
        ⟨[CheckerName.jointState, CheckerName.split, CheckerName.learner,
            CheckerName.replica], [], []⟩ := by
      simp [CheckRegion, hj, hs, hen, hl hen, hr hen, CheckLog.consult]
    rw [heq]
    exact mergeStep_noop c _ hm rfl

/-- Witness for C7: in the baseline all-declining environment the call
returns no action and a concrete controller state is left untouched. -/
theorem checkRegion_noop_witness :
    (CheckRegion envBase region0).1 = [] ∧
    applyCheckLog ⟨[3], [4]⟩ (CheckRegion envBase region0).2 = ⟨[3], [4]⟩ :=
  ⟨(checkRegion_noop envBase region0 rfl rfl
      (fun fit hfit => by simp [envBase] at hfit)
      (fun h => by simp [envBase] at h)
      (fun h => by simp [envBase] at h) rfl).1,
    (checkRegion_noop envBase region0 rfl rfl
      (fun fit hfit => by simp [envBase] at hfit)
      (fun h => by simp [envBase] at h)
      (fun h => by simp [envBase] at h) rfl).2.2 ⟨[3], [4]⟩⟩

/-- C8: whatever the checkers and limits do, a `CheckRegion` result is
empty, a single operator from one of the single-action paths, or exactly
the merge checker's proposed set — hence, with the merge checker
proposing at most a pair, never more than two actions. -/
theorem checkRegion_arity (c : CheckerEnv) (region : RegionInfo)
    (hpair : ∀ l, c.mergeCheck = some l → l.length ≤ 2) :
    (CheckRegion c region).1.length ≤ 2 ∧
    ((CheckRegion c region).1 = [] ∨
      (∃ op, (CheckRegion c region).1 = [op]) ∨
      c.mergeCheck = some (CheckRegion c region).1) := by
  rcases checkRegion_shape c region with ⟨op, log, heq⟩ | ⟨log, heq⟩
  · rw [heq]
    exact ⟨by simp, Or.inr (Or.inl ⟨op, rfl⟩)⟩
  · rw [heq]
    rcases mergeStep_fst c log with h | h
    · rw [h]
      exact ⟨by simp, Or.inl rfl⟩
    · exact ⟨hpair _ h, Or.inr (Or.inr h)⟩

/-- Witness for C8: with the merge checker proposing the pair 10/11 and
everything else declining, the call returns exactly 2 actions. -/
theorem checkRegion_arity_witness :
    (CheckRegion { envBase with
      mergeCheck := some [⟨10⟩, ⟨11⟩] } region0).1.length ≤ 2 ∧
    (CheckRegion { envBase with
      mergeCheck := some [⟨10⟩, ⟨11⟩] } region0).1.length = 2 :=
  ⟨(checkRegion_arity _ region0
      (fun l hl => by simp [envBase] at hl; subst hl; decide)).1,
    by decide⟩

/-- C9: construction is a total function — no error or partial state —
that builds each of the seven checkers exactly once from the given
dependencies and wires one single waiting-list instance of default
capacity 1000 into the replica checker, the rule checker and the
controller itself. -/
theorem newCheckerController_wiring (ctx : Context) (cluster : Cluster)
    (ruleManager : RuleManager) (labeler : RegionLabeler)
    (opController : OperatorController) :
    (NewCheckerController ctx cluster ruleManager labeler
        opController).regionWaitingList = NewDefaultCache DefaultCacheSize ∧
    (NewCheckerController ctx cluster ruleManager labeler
        opController).regionWaitingList.capacity = 1000 ∧
    DefaultCacheSize = 1000 ∧
    (NewCheckerController ctx cluster ruleManager labeler
        opController).replicaChecker.regionWaitingList =
      (NewCheckerController ctx cluster ruleManager labeler
        opController).regionWaitingList ∧
    (NewCheckerController ctx cluster ruleManager labeler
        opController).ruleChecker.regionWaitingList =
      (NewCheckerController ctx cluster ruleManager labeler
        opController).regionWaitingList ∧
    (NewCheckerController ctx cluster ruleManager labeler
        opController).learnerChecker = NewLearnerChecker cluster ∧
    (NewCheckerController ctx cluster ruleManager labeler
        opController).replicaChecker =
      NewReplicaChecker cluster (NewDefaultCache DefaultCacheSize) ∧
    (NewCheckerController ctx cluster ruleManager labeler
        opController).ruleChecker =
      NewRuleChecker cluster ruleManager (NewDefaultCache DefaultCacheSize) ∧
    (NewCheckerController ctx cluster ruleManager labeler
        opController).splitChecker = NewSplitChecker cluster ruleManager labeler ∧
    (NewCheckerController ctx cluster ruleManager labeler
        opController).mergeChecker = NewMergeChecker ctx cluster ∧
    (NewCheckerController ctx cluster ruleManager labeler
        opController).jointStateChecker = NewJointStateChecker cluster ∧
    (NewCheckerController ctx cluster ruleManager labeler
        opController).priorityChecker = NewPriorityChecker cluster ∧
    (NewCheckerController ctx cluster ruleManager labeler
        opController).opts = cluster.getOpts :=
  ⟨rfl, rfl, rfl, rfl, rfl, rfl, rfl, rfl, rfl, rfl, rfl, rfl, rfl⟩

end PD

namespace PDStats

/-- C10: `FlowKind.String` and `FlowKind.RegionStats` are total over all
flow-kind values: `"write"`/`"read"` and the three write/read region-stat
kinds for `WriteFlow`/`ReadFlow`, and `"unimplemented"` / the empty
result for every other value — neither can fail. -/
theorem flowKind_methods_total (k : FlowKind) :
    FlowKind.String WriteFlow = "write" ∧
    FlowKind.String ReadFlow = "read" ∧
    (k ≠ WriteFlow → k ≠ ReadFlow → FlowKind.String k = "unimplemented") ∧
    FlowKind.RegionStats WriteFlow
      = [RegionStatKind.RegionWriteBytes, RegionStatKind.RegionWriteKeys,
          RegionStatKind.RegionWriteQuery] ∧
    FlowKind.RegionStats ReadFlow
      = [RegionStatKind.RegionReadBytes, RegionStatKind.RegionReadKeys,
          RegionStatKind.RegionReadQuery] ∧
    (k ≠ WriteFlow → k ≠ ReadFlow → FlowKind.RegionStats k = []) := by
  refine ⟨rfl, rfl, fun h1 h2 => ?_, rfl, rfl, fun h1 h2 => ?_⟩ <;>
    simp [FlowKind.String, FlowKind.RegionStats, h1, h2]

/-- Witness for C10: value 5 is neither `WriteFlow` nor `ReadFlow`, and
both methods fall through to their defaults on it. -/
theorem flowKind_methods_total_witness :
    FlowKind.String 5 = "unimplemented" ∧ FlowKind.RegionStats 5 = [] :=
  ⟨(flowKind_methods_total 5).2.2.1 (by decide) (by decide),
    (flowKind_methods_total 5).2.2.2.2.2 (by decide) (by decide)⟩

end PDStats
